import Mathlib

/-!
Verification development for the Workshop-Firebase-Genkit repository.

The repository is an instructional corpus; its specified core is a bounded
tool-call orchestration engine (spec §2-§7).  The engine itself is provided by
the external SDK and is not part of the repository's sources, so it is
modelled here from the specification text.  The repository's own scripts
(the Game of Thrones quotes tool and the blog-post flow) are embedded
directly from their sources.
-/

namespace Orchestration

/-- A minimal structured (JSON-like) value, standing for tool inputs and
outputs and for structured model output. -/
inductive JsonValue where
  | null
  | str (s : String)
  | num (n : Int)
  | arr (elems : List JsonValue)
  | obj (fields : List (String × JsonValue))

/-- Role of a conversation turn (spec §3: one of system, user, model, tool). -/
inductive Role where
  | system
  | user
  | model
  | tool
deriving DecidableEq

/-- Modelled from the spec: ToolInvocationRequest (§3) — `name`, structured
`input`, and the opaque `referenceId` correlation token. -/
structure ToolInvocationRequest where
  name : String
  input : JsonValue
  referenceId : Nat

/-- Modelled from the spec: ToolInvocationResult (§3) — `name`, the
`referenceId` copied from the matching request, and an output or an error
payload. -/
structure ToolInvocationResult where
  name : String
  referenceId : Nat
  output : Except String JsonValue

/-- One content part of a conversation turn (spec §3): a text segment, a
tool-invocation-request or a tool-invocation-result. -/
inductive Part where
  | text (s : String)
  | toolRequest (req : ToolInvocationRequest)
  | toolResult (res : ToolInvocationResult)

/-- Modelled from the spec: ConversationTurn (§3) — a role and an ordered
sequence of content parts. -/
structure ConversationTurn where
  role : Role
  content : List Part

/-- Modelled from the spec: ModelResponse (§6) — a tagged variant: a final
answer or one-or-more tool-invocation requests. -/
inductive ModelResponse where
  | final (content : String)
  | toolRequests (reqs : List ToolInvocationRequest)

/-- Whether a model response is of the tool-requests variant. -/
def isToolRequestsResponse : ModelResponse → Bool
  | ModelResponse.toolRequests _ => true
  | ModelResponse.final _ => false

/-- Modelled from the spec: the Tool Registry (§2, §6) — it maps a tool name
to an executable handler; a handler returns an output or a
ToolExecutionError message. -/
abbrev ToolRegistry := List (String × (JsonValue → Except String JsonValue))

/-- Modelled from the spec: OrchestrationSession (§3) — accumulated history,
`maxTurns`, `turnCount` and the `explicitControl` flag. -/
structure OrchestrationSession where
  history : List ConversationTurn
  maxTurns : Nat
  turnCount : Nat
  explicitControl : Bool

/-- Appending one turn to a session's history (the orchestrator only appends,
never mutates history in place). -/
def appendTurn (s : OrchestrationSession) (t : ConversationTurn) :
    OrchestrationSession :=
  { s with history := s.history ++ [t] }

/-- Modelled from the spec: fatal orchestration errors (§7) — endpoint-level
failures and malformed session state. -/
inductive OrchestrationError where
  | endpointUnavailable
  | malformedSession
deriving DecidableEq

/-- Modelled from the spec: the outcome of one `run` invocation (§4.1 state
machine) — COMPLETE, SUSPENDED_FOR_CALLER, TRUNCATED, or a fatal error. -/
inductive RunOutcome where
  | complete (content : String)
  | suspended (pending : List ToolInvocationRequest)
  | truncated (last : ModelResponse)
  | fatal (err : OrchestrationError)

/-- Modelled from the spec: automatic dispatch of one tool-invocation-request
(§4.1 step 2d, §7 UnknownTool): a registered tool is invoked on the request's
input; an unregistered name yields an error-bearing result instead of
aborting the turn. -/
def dispatchOne (registry : ToolRegistry) (req : ToolInvocationRequest) :
    ToolInvocationResult :=
  match registry.lookup req.name with
  | some handler =>
      { name := req.name, referenceId := req.referenceId,
        output := handler req.input }
  | none =>
      { name := req.name, referenceId := req.referenceId,
        output := Except.error ("UnknownTool: " ++ req.name) }

/-- Modelled from the spec: the bounded orchestration loop (§4.1 step 2).
The Model Endpoint is modelled by a fixed script of responses, consumed one
per round-trip; an exhausted script models `EndpointUnavailable`.  The fuel
argument equals `maxTurns - turnCount`, so one round-trip happens exactly
while `turnCount < maxTurns`; `last` is the most recently received model
response, returned verbatim as TRUNCATED when the budget runs out. -/
def runLoop (registry : ToolRegistry) :
    Nat → List ModelResponse → OrchestrationSession → Option ModelResponse →
    RunOutcome × OrchestrationSession
  | 0, _, s, some lastResp => (RunOutcome.truncated lastResp, s)
  | 0, _, s, none => (RunOutcome.fatal OrchestrationError.malformedSession, s)
  | _ + 1, [], s, _ =>
      (RunOutcome.fatal OrchestrationError.endpointUnavailable, s)
  | fuel + 1, resp :: rest, s, _ =>
      let s1 : OrchestrationSession := { s with turnCount := s.turnCount + 1 }
      match resp with
      | ModelResponse.final content =>
          (RunOutcome.complete content,
           appendTurn s1 { role := Role.model, content := [Part.text content] })
      | ModelResponse.toolRequests reqs =>
          let s2 := appendTurn s1
            { role := Role.model, content := reqs.map Part.toolRequest }
          if s.explicitControl then
            (RunOutcome.suspended reqs, s2)
          else
            let results := reqs.map (dispatchOne registry)
            let s3 := appendTurn s2
              { role := Role.tool, content := results.map Part.toolResult }
            runLoop registry fuel rest s3 (some resp)

/-- Modelled from the spec: `run(session, initialPrompt, toolRegistry)`
(§4.1): append the initial prompt to history as a user turn, then drive the
loop while `turnCount < maxTurns`. -/
def run (s : OrchestrationSession) (initialPrompt : String)
    (registry : ToolRegistry) (script : List ModelResponse) :
    RunOutcome × OrchestrationSession :=
  runLoop registry (s.maxTurns - s.turnCount) script
    (appendTurn s { role := Role.user, content := [Part.text initialPrompt] })
    none

/-- Modelled from the spec: the caller-facing options record (§6):
`maxTurns` defaults to 5 and `explicitControl` to false. -/
structure OrchestrationOptions where
  maxTurns : Nat := 5
  explicitControl : Bool := false
deriving DecidableEq

/-- The options used when the caller supplies none: every field takes its
declared default. -/
def defaultOptions : OrchestrationOptions := {}

/-- A freshly constructed session for one `run` call: empty history,
`turnCount` 0, limits taken from the options. -/
def mkSession (o : OrchestrationOptions) : OrchestrationSession :=
  { history := [], maxTurns := o.maxTurns, turnCount := 0,
    explicitControl := o.explicitControl }

/-- `run` on a freshly constructed session with the given options. -/
def runWithOptions (o : OrchestrationOptions) (p : String)
    (registry : ToolRegistry) (script : List ModelResponse) :
    RunOutcome × OrchestrationSession :=
  run (mkSession o) p registry script

/-- `run` invoked without options: the defaults apply. -/
def runDefault (p : String) (registry : ToolRegistry)
    (script : List ModelResponse) : RunOutcome × OrchestrationSession :=
  runWithOptions defaultOptions p registry script

/-- Modelled from the spec: concurrent dispatch within one turn (§4.1, §5).
Completion order is modelled by a completion schedule: the list of request
indices in the order their invocations finish.  Results are collected in
completion order. -/
def collectByCompletion (registry : ToolRegistry)
    (reqs : List ToolInvocationRequest) (order : List Nat) :
    List ToolInvocationResult :=
  order.filterMap (fun i => (reqs[i]?).map (dispatchOne registry))

/-- Modelled from the spec: reordering of the collected results so that they
match the order the requests were received, pairing by `referenceId`. -/
def reorderByReference (reqs : List ToolInvocationRequest)
    (completed : List ToolInvocationResult) : List ToolInvocationResult :=
  reqs.filterMap
    (fun r => completed.find? (fun res => res.referenceId == r.referenceId))

/-- Modelled from the spec: the full concurrent dispatch of one turn's
requests under a given completion schedule — collect in completion order,
then reorder to request order by `referenceId`. -/
def dispatchConcurrent (registry : ToolRegistry)
    (reqs : List ToolInvocationRequest) (order : List Nat) :
    List ToolInvocationResult :=
  reorderByReference reqs (collectByCompletion registry reqs order)

end Orchestration

namespace GoTQuotes

open Orchestration

/-- `API_URL_BASE` from the Game of Thrones quotes script. -/
def API_URL_BASE : String := "https://api.gameofthronesquotes.xyz/v1/author"

/-- `InputGetQuotesToolSchema` from the source: a character `name` and a
`numQuotes` count (the zod default 1 applies when absent; the field is
modelled as already-resolved). -/
structure InputGetQuotes where
  name : String
  numQuotes : Nat
deriving DecidableEq

/-- JS `split(" ")` on a character list: split at every space character,
keeping empty segments, as JS does; the result is never empty. -/
def splitOnSpaceChars : List Char → List (List Char)
  | [] => [[]]
  | c :: cs =>
    if c = ' ' then [] :: splitOnSpaceChars cs
    else
      match splitOnSpaceChars cs with
      | [] => [[c]]
      | seg :: segs => (c :: seg) :: segs

/-- `split(" ")[0]`: the first segment of a string split at the space
character — the separator the source uses. -/
def firstWord (s : String) : String :=
  String.mk ((splitOnSpaceChars s.data).headD [])

/-- JS `toLowerCase()`: lowercase every character. -/
def jsToLowerString (s : String) : String :=
  String.mk (s.data.map Char.toLower)

/-- The character path segment computed by the tool body:
`let characterName = ""; if (input.name) { characterName =
input.name.split(" ")[0].toLowerCase(); }` (an empty JS string is falsy). -/
def characterNameOf (input : InputGetQuotes) : String :=
  if input.name ≠ "" then jsToLowerString (firstWord input.name) else ""

/-- The URL the tool fetches:
`${API_URL_BASE}/${characterName}/${input.numQuotes}`. -/
def requestUrl (input : InputGetQuotes) : String :=
  API_URL_BASE ++ "/" ++ characterNameOf input ++ "/" ++
    toString input.numQuotes

/-- One element of the API response (`ApiQuota` in the source). -/
structure ApiQuota where
  sentence : String
  character : JsonValue

/-- The quotes the tool extracts from the API response:
`response.forEach((sentence) => quotes.push(sentence.sentence))`. -/
def quotesOf (response : List ApiQuota) : List String :=
  response.map (fun q => q.sentence)

end GoTQuotes

namespace BlogPostFlow

open Orchestration

/-- `BlogPostSchema` from the source: an object with a string `title` and a
string `description`. -/
def blogPostSchemaAccepts : JsonValue → Bool
  | JsonValue.obj fields =>
      (match fields.lookup "title", fields.lookup "description" with
       | some (JsonValue.str _), some (JsonValue.str _) => true
       | _, _ => false)
  | _ => false

/-- Modelled from the spec: the structured-output `generate` call of the
external SDK (the schema-validation collaborator, out of scope §1): the
typed `output` is the model's value when it satisfies the declared schema
and null (`none`) otherwise. -/
def generateStructured (raw : JsonValue) : Option JsonValue :=
  if blogPostSchemaAccepts raw then some raw else none

/-- `BlogPostFlowWithSchema` from the source: the first `generate` call
describes the photo and its text feeds the second prompt; the second call
requests structured output against `BlogPostSchema`; a null output raises
"Response doesn't satisfy schema.", otherwise the output is returned.  The
model endpoint is modelled by `animalsText` (the first call's text) and
`structuredModel` (the second call's raw value as a function of its
prompt). -/
def BlogPostFlowWithSchema (animalsText : String)
    (structuredModel : String → JsonValue) : Except String JsonValue :=
  let prompt :=
    "Create a blog post for national geographic over these animals " ++
      animalsText
  match generateStructured (structuredModel prompt) with
  | none => Except.error "Response doesn't satisfy schema."
  | some output => Except.ok output

end BlogPostFlow

namespace Orchestration

theorem appendTurn_turnCount (s : OrchestrationSession) (t : ConversationTurn) :
    (appendTurn s t).turnCount = s.turnCount := rfl

theorem appendTurn_maxTurns (s : OrchestrationSession) (t : ConversationTurn) :
    (appendTurn s t).maxTurns = s.maxTurns := rfl

theorem runLoop_turnCount_le (registry : ToolRegistry) :
    ∀ (fuel : Nat) (script : List ModelResponse) (s : OrchestrationSession)
      (last : Option ModelResponse),
      (runLoop registry fuel script s last).2.turnCount ≤ s.turnCount + fuel := by
  intro fuel
  induction fuel with
  | zero =>
    intro script s last
    cases last <;> simp [runLoop]
  | succ n ih =>
    intro script s last
    cases script with
    | nil => simp [runLoop]
    | cons resp rest =>
      cases resp with
      | final content =>
        simp [runLoop, appendTurn]
      | toolRequests reqs =>
        by_cases hc : s.explicitControl
        · simp [runLoop, hc, appendTurn]
        · simp only [runLoop, hc, if_false, Bool.false_eq_true]
          refine le_trans (ih rest _ _) ?_
          simp [appendTurn]
          omega

/-- C1: for every run of the orchestration loop, regardless of the model's
responses, the session's `turnCount` after `run` completes is at most
`maxTurns`: the loop performs a model round-trip only while
`turnCount < maxTurns`, so `turnCount` never exceeds `maxTurns`. -/
theorem run_turnCount_le_maxTurns (s : OrchestrationSession) (p : String)
    (registry : ToolRegistry) (script : List ModelResponse)
    (h : s.turnCount = 0) :
    (run s p registry script).2.turnCount ≤ s.maxTurns := by
  have hle := runLoop_turnCount_le registry (s.maxTurns - s.turnCount) script
    (appendTurn s { role := Role.user, content := [Part.text p] }) none
  rw [run]
  refine le_trans hle ?_
  rw [appendTurn_turnCount]
  omega

theorem run_turnCount_le_maxTurns_witness :
    (run (mkSession defaultOptions) "What is the weather in Baltimore?" []
      []).2.turnCount ≤ (mkSession defaultOptions).maxTurns :=
  run_turnCount_le_maxTurns (mkSession defaultOptions)
    "What is the weather in Baltimore?" [] [] rfl

/-- C5: for every automatic-mode run in which the model's first (and
therefore every) response contains no tool-invocation-requests, exactly one
Model Endpoint round-trip happens and the session finishes with
`turnCount = 1`, with outcome COMPLETE carrying that response's content. -/
theorem run_immediate_final_single_call (s : OrchestrationSession)
    (p : String) (registry : ToolRegistry) (c : String)
    (rest : List ModelResponse) (hT : s.turnCount = 0) (hM : 1 ≤ s.maxTurns)
    (_hC : s.explicitControl = false) :
    (run s p registry (ModelResponse.final c :: rest)).1 =
      RunOutcome.complete c ∧
    (run s p registry (ModelResponse.final c :: rest)).2.turnCount = 1 := by
  obtain ⟨k, hk⟩ : ∃ k, s.maxTurns = k + 1 := ⟨s.maxTurns - 1, by omega⟩
  constructor <;> simp [run, hT, hk, runLoop, appendTurn]

theorem run_immediate_final_single_call_witness :
    (run (mkSession { maxTurns := 1 }) "What is the weather in Baltimore?" []
        [ModelResponse.final
          "The current weather in Baltimore is 63°F and sunny."]).1 =
      RunOutcome.complete
        "The current weather in Baltimore is 63°F and sunny." ∧
    (run (mkSession { maxTurns := 1 }) "What is the weather in Baltimore?" []
        [ModelResponse.final
          "The current weather in Baltimore is 63°F and sunny."]).2.turnCount
      = 1 :=
  run_immediate_final_single_call (mkSession { maxTurns := 1 })
    "What is the weather in Baltimore?" []
    "The current weather in Baltimore is 63°F and sunny." [] rfl
    (by decide) rfl

/-- C6: when the caller supplies no options, `maxTurns` defaults to 5 and
`explicitControl` to false, and a run invoked without options is identical
to one invoked with `maxTurns := 5` and automatic dispatch. -/
theorem run_default_options :
    defaultOptions.maxTurns = 5 ∧ defaultOptions.explicitControl = false ∧
    ∀ (p : String) (registry : ToolRegistry) (script : List ModelResponse),
      runDefault p registry script =
        runWithOptions { maxTurns := 5, explicitControl := false } p registry
          script :=
  ⟨rfl, rfl, fun _ _ _ => rfl⟩

/-- C3: when the session's `explicitControl` flag is true and the model's
response contains tool-invocation-requests, `run` returns a SUSPENDED result
carrying the pending requests, and invokes no tool handler: the entire
result is independent of the registry, so no implicit dispatch happens. -/
theorem run_explicitControl_suspends (s : OrchestrationSession) (p : String)
    (registry : ToolRegistry) (reqs : List ToolInvocationRequest)
    (rest : List ModelResponse) (hT : s.turnCount = 0) (hM : 1 ≤ s.maxTurns)
    (hC : s.explicitControl = true) :
    (run s p registry (ModelResponse.toolRequests reqs :: rest)).1 =
      RunOutcome.suspended reqs ∧
    ∀ registry' : ToolRegistry,
      run s p registry (ModelResponse.toolRequests reqs :: rest) =
        run s p registry' (ModelResponse.toolRequests reqs :: rest) := by
  obtain ⟨k, hk⟩ : ∃ k, s.maxTurns = k + 1 := ⟨s.maxTurns - 1, by omega⟩
  constructor
  · simp [run, hT, hk, runLoop, hC, appendTurn]
  · intro registry'
    simp [run, hT, hk, runLoop, hC, appendTurn]

theorem run_explicitControl_suspends_witness :
    (run (mkSession { maxTurns := 5, explicitControl := true })
        "What is the weather in Baltimore?" []
        [ModelResponse.toolRequests
          [{ name := "getWeather", input := JsonValue.null,
             referenceId := 0 }]]).1 =
      RunOutcome.suspended
        [{ name := "getWeather", input := JsonValue.null,
           referenceId := 0 }] ∧
    ∀ registry' : ToolRegistry,
      run (mkSession { maxTurns := 5, explicitControl := true })
          "What is the weather in Baltimore?" []
          [ModelResponse.toolRequests
            [{ name := "getWeather", input := JsonValue.null,
               referenceId := 0 }]] =
        run (mkSession { maxTurns := 5, explicitControl := true })
          "What is the weather in Baltimore?" registry'
          [ModelResponse.toolRequests
            [{ name := "getWeather", input := JsonValue.null,
               referenceId := 0 }]] :=
  run_explicitControl_suspends
    (mkSession { maxTurns := 5, explicitControl := true })
    "What is the weather in Baltimore?" []
    [{ name := "getWeather", input := JsonValue.null, referenceId := 0 }]
    [] rfl (by decide) rfl

end Orchestration

namespace Orchestration

/-- One automatic-mode iteration of the loop on a tool-requests response:
increment `turnCount`, append the requests as a model turn, append the
dispatched results (in request order) as a tool turn, and continue with the
response recorded as the last one received. -/
theorem runLoop_step_auto (registry : ToolRegistry) (fuel : Nat)
    (reqs : List ToolInvocationRequest) (rest : List ModelResponse)
    (s : OrchestrationSession) (last : Option ModelResponse)
    (hC : s.explicitControl = false) :
    runLoop registry (fuel + 1) (ModelResponse.toolRequests reqs :: rest) s
        last =
      runLoop registry fuel rest
        (appendTurn (appendTurn { s with turnCount := s.turnCount + 1 }
            { role := Role.model, content := reqs.map Part.toolRequest })
          { role := Role.tool,
            content := (reqs.map (dispatchOne registry)).map Part.toolResult })
        (some (ModelResponse.toolRequests reqs)) := by
  simp [runLoop, hC]

/-- The loop only appends to history: every turn already present in the
session's history is present after the loop returns. -/
theorem runLoop_history_mono (registry : ToolRegistry) :
    ∀ (fuel : Nat) (script : List ModelResponse) (s : OrchestrationSession)
      (last : Option ModelResponse) (t : ConversationTurn),
      t ∈ s.history → t ∈ (runLoop registry fuel script s last).2.history := by
  intro fuel
  induction fuel with
  | zero =>
    intro script s last t ht
    cases last <;> simpa [runLoop]
  | succ n ih =>
    intro script s last t ht
    cases script with
    | nil => simpa [runLoop]
    | cons resp rest =>
      cases resp with
      | final c =>
        simp [runLoop, appendTurn]
        exact Or.inl ht
      | toolRequests reqs =>
        by_cases hc : s.explicitControl
        · simp [runLoop, hc, appendTurn]
          exact Or.inl ht
        · have hC : s.explicitControl = false := by simpa using hc
          rw [runLoop_step_auto registry n reqs rest s last hC]
          refine ih rest _ _ t ?_
          simp [appendTurn]
          exact Or.inl ht

/-- When every scripted response is a tool request and the script covers the
whole fuel budget, the loop in automatic mode consumes all its fuel and ends
TRUNCATED on the last response it received. -/
theorem runLoop_all_toolRequests (registry : ToolRegistry) :
    ∀ (fuel : Nat) (script : List ModelResponse) (s : OrchestrationSession)
      (last : Option ModelResponse),
      1 ≤ fuel → fuel ≤ script.length →
      (∀ r ∈ script, isToolRequestsResponse r = true) →
      s.explicitControl = false →
      ∃ reqs, script[fuel - 1]? = some (ModelResponse.toolRequests reqs) ∧
        (runLoop registry fuel script s last).1 =
          RunOutcome.truncated (ModelResponse.toolRequests reqs) := by
  intro fuel
  induction fuel with
  | zero =>
    intro script s last h1
    omega
  | succ n ih =>
    intro script s last h1 hlen hall hC
    cases script with
    | nil => simp at hlen
    | cons resp rest =>
      cases resp with
      | final c =>
        have hhd := hall (ModelResponse.final c) (List.mem_cons_self _ _)
        simp [isToolRequestsResponse] at hhd
      | toolRequests reqs0 =>
        rw [runLoop_step_auto registry n reqs0 rest s last hC]
        cases n with
        | zero =>
          refine ⟨reqs0, by simp, ?_⟩
          simp [runLoop]
        | succ m =>
          have hlen' : m + 1 ≤ rest.length := by
            simp only [List.length_cons] at hlen
            omega
          obtain ⟨reqs, hget, hout⟩ := ih rest
            (appendTurn (appendTurn { s with turnCount := s.turnCount + 1 }
                { role := Role.model, content := reqs0.map Part.toolRequest })
              { role := Role.tool,
                content :=
                  (reqs0.map (dispatchOne registry)).map Part.toolResult })
            (some (ModelResponse.toolRequests reqs0)) (by omega) hlen'
            (fun r hr => hall r (List.mem_cons_of_mem _ hr)) hC
          exact ⟨reqs, by simpa using hget, hout⟩

/-- C2: if the loop exhausts its turn budget without the model producing a
terminal answer (every scripted response requests tools), `run` returns the
last received model response unchanged, marked TRUNCATED, and this outcome
is a terminal state, not a fatal error; with `maxTurns = 1` and a first
response that requests a tool, this is exactly TRUNCATED carrying that
tool-requesting response. -/
theorem run_budget_exhausted_truncates (s : OrchestrationSession)
    (p : String) (registry : ToolRegistry) (script : List ModelResponse)
    (hT : s.turnCount = 0) (hM : 1 ≤ s.maxTurns)
    (hC : s.explicitControl = false) (hlen : s.maxTurns ≤ script.length)
    (hall : ∀ r ∈ script, isToolRequestsResponse r = true) :
    ∃ reqs,
      script[s.maxTurns - 1]? = some (ModelResponse.toolRequests reqs) ∧
      (run s p registry script).1 =
        RunOutcome.truncated (ModelResponse.toolRequests reqs) ∧
      ∀ e, (run s p registry script).1 ≠ RunOutcome.fatal e := by
  obtain ⟨reqs, hget, hout⟩ := runLoop_all_toolRequests registry s.maxTurns
    script (appendTurn s { role := Role.user, content := [Part.text p] })
    none hM hlen hall hC
  refine ⟨reqs, hget, ?_, ?_⟩
  · rw [run, hT]
    simpa using hout
  · intro e habs
    rw [run, hT] at habs
    simp only [Nat.sub_zero] at habs
    rw [hout] at habs
    exact RunOutcome.noConfusion habs

theorem run_budget_exhausted_truncates_witness :
    ∃ reqs,
      [ModelResponse.toolRequests
          [{ name := "getWeather",
             input := JsonValue.obj [("location", JsonValue.str "Baltimore")],
             referenceId := 1 }]][(mkSession { maxTurns := 1 }).maxTurns - 1]?
        = some (ModelResponse.toolRequests reqs) ∧
      (run (mkSession { maxTurns := 1 }) "What is the weather in Baltimore?"
          []
          [ModelResponse.toolRequests
            [{ name := "getWeather",
               input := JsonValue.obj
                 [("location", JsonValue.str "Baltimore")],
               referenceId := 1 }]]).1 =
        RunOutcome.truncated (ModelResponse.toolRequests reqs) ∧
      ∀ e,
        (run (mkSession { maxTurns := 1 }) "What is the weather in Baltimore?"
            []
            [ModelResponse.toolRequests
              [{ name := "getWeather",
                 input := JsonValue.obj
                   [("location", JsonValue.str "Baltimore")],
                 referenceId := 1 }]]).1 ≠ RunOutcome.fatal e :=
  run_budget_exhausted_truncates (mkSession { maxTurns := 1 })
    "What is the weather in Baltimore?" []
    [ModelResponse.toolRequests
      [{ name := "getWeather",
         input := JsonValue.obj [("location", JsonValue.str "Baltimore")],
         referenceId := 1 }]]
    rfl (by decide) rfl (by decide) (by decide)

/-- C4: a tool-invocation-request naming a tool absent from the registry is
not fatal: dispatch synthesizes a ToolInvocationResult carrying an error
payload in place of an output, the result is fed back to the model as a
tool turn in history, and the loop continues to the next model round-trip
(here reaching the model's final answer). -/
theorem run_unknown_tool_recovers (s : OrchestrationSession) (p c : String)
    (registry : ToolRegistry) (req : ToolInvocationRequest)
    (rest : List ModelResponse) (hT : s.turnCount = 0)
    (hC : s.explicitControl = false) (hM : 2 ≤ s.maxTurns)
    (hLook : registry.lookup req.name = none) :
    dispatchOne registry req =
      { name := req.name, referenceId := req.referenceId,
        output := Except.error ("UnknownTool: " ++ req.name) } ∧
    (run s p registry
        (ModelResponse.toolRequests [req] ::
          ModelResponse.final c :: rest)).1 = RunOutcome.complete c ∧
    ({ role := Role.tool,
       content := [Part.toolResult
         { name := req.name, referenceId := req.referenceId,
           output := Except.error ("UnknownTool: " ++ req.name) }] } :
        ConversationTurn) ∈
      (run s p registry
        (ModelResponse.toolRequests [req] ::
          ModelResponse.final c :: rest)).2.history := by
  have hd : dispatchOne registry req =
      { name := req.name, referenceId := req.referenceId,
        output := Except.error ("UnknownTool: " ++ req.name) } := by
    simp [dispatchOne, hLook]
  obtain ⟨k, hk⟩ : ∃ k, s.maxTurns = k + 2 := ⟨s.maxTurns - 2, by omega⟩
  have hfuel : s.maxTurns - s.turnCount = (k + 1) + 1 := by omega
  refine ⟨hd, ?_, ?_⟩
  · rw [run, hfuel,
      runLoop_step_auto registry (k + 1) [req]
        (ModelResponse.final c :: rest)
        (appendTurn s { role := Role.user, content := [Part.text p] })
        none hC]
    simp [runLoop]
  · rw [run, hfuel,
      runLoop_step_auto registry (k + 1) [req]
        (ModelResponse.final c :: rest)
        (appendTurn s { role := Role.user, content := [Part.text p] })
        none hC]
    refine runLoop_history_mono registry (k + 1) _ _ _ _ ?_
    simp [appendTurn, hd]

theorem run_unknown_tool_recovers_witness :
    dispatchOne []
        { name := "doesNotExist", input := JsonValue.null,
          referenceId := 3 } =
      { name := "doesNotExist", referenceId := 3,
        output := Except.error ("UnknownTool: " ++ "doesNotExist") } ∧
    (run (mkSession { maxTurns := 2 }) "Please look this up" []
        (ModelResponse.toolRequests
            [{ name := "doesNotExist", input := JsonValue.null,
               referenceId := 3 }] ::
          ModelResponse.final "I could not find that tool." :: [])).1 =
      RunOutcome.complete "I could not find that tool." ∧
    ({ role := Role.tool,
       content := [Part.toolResult
         { name := "doesNotExist", referenceId := 3,
           output := Except.error ("UnknownTool: " ++ "doesNotExist") }] } :
        ConversationTurn) ∈
      (run (mkSession { maxTurns := 2 }) "Please look this up" []
        (ModelResponse.toolRequests
            [{ name := "doesNotExist", input := JsonValue.null,
               referenceId := 3 }] ::
          ModelResponse.final "I could not find that tool." :: [])).2.history :=
  run_unknown_tool_recovers (mkSession { maxTurns := 2 })
    "Please look this up" "I could not find that tool." []
    { name := "doesNotExist", input := JsonValue.null, referenceId := 3 }
    [] rfl rfl (by decide) rfl

/-- The loop's result depends on the registry only through the results of
dispatch: two registries whose dispatch agrees on every request drive the
loop to identical outcomes and identical sessions. -/
theorem runLoop_dispatch_congr (reg1 reg2 : ToolRegistry)
    (h : ∀ req, dispatchOne reg1 req = dispatchOne reg2 req) :
    ∀ (fuel : Nat) (script : List ModelResponse) (s : OrchestrationSession)
      (last : Option ModelResponse),
      runLoop reg1 fuel script s last = runLoop reg2 fuel script s last := by
  intro fuel
  induction fuel with
  | zero =>
    intro script s last
    cases last <;> rfl
  | succ n ih =>
    intro script s last
    cases script with
    | nil => rfl
    | cons resp rest =>
      cases resp with
      | final c => rfl
      | toolRequests reqs =>
        by_cases hc : s.explicitControl
        · simp [runLoop, hc]
        · have hC : s.explicitControl = false := by simpa using hc
          rw [runLoop_step_auto reg1 n reqs rest s last hC,
            runLoop_step_auto reg2 n reqs rest s last hC,
            show reqs.map (dispatchOne reg1) = reqs.map (dispatchOne reg2)
              from List.map_congr_left (fun r _ => h r)]
          exact ih rest _ _

/-- C7: given the same fixed script of Model Endpoint responses and tools
producing identical outputs, two `run` invocations on freshly constructed
equivalent sessions are identical — the same final history (same turns, same
roles, same order) and the same outcome: `run` is a deterministic function
of its inputs and the collaborator responses. -/
theorem run_replay_deterministic (reg1 reg2 : ToolRegistry)
    (h : ∀ req, dispatchOne reg1 req = dispatchOne reg2 req)
    (o : OrchestrationOptions) (p : String) (script : List ModelResponse) :
    (runWithOptions o p reg1 script).2.history =
      (runWithOptions o p reg2 script).2.history ∧
    runWithOptions o p reg1 script = runWithOptions o p reg2 script := by
  have heq : runWithOptions o p reg1 script = runWithOptions o p reg2 script := by
    simp only [runWithOptions, run]
    exact runLoop_dispatch_congr reg1 reg2 h _ _ _ _
  exact ⟨by rw [heq], heq⟩

theorem run_replay_deterministic_witness :
    (runWithOptions { maxTurns := 2 } "What is the weather in Baltimore?"
        [("getWeather", fun _ => Except.ok (JsonValue.str "63°F and sunny"))]
        [ModelResponse.toolRequests
            [{ name := "getWeather", input := JsonValue.null,
               referenceId := 1 }],
          ModelResponse.final "63°F and sunny"]).2.history =
      (runWithOptions { maxTurns := 2 } "What is the weather in Baltimore?"
        [("getWeather", fun _ => Except.ok (JsonValue.str "63°F and sunny"))]
        [ModelResponse.toolRequests
            [{ name := "getWeather", input := JsonValue.null,
               referenceId := 1 }],
          ModelResponse.final "63°F and sunny"]).2.history ∧
    runWithOptions { maxTurns := 2 } "What is the weather in Baltimore?"
        [("getWeather", fun _ => Except.ok (JsonValue.str "63°F and sunny"))]
        [ModelResponse.toolRequests
            [{ name := "getWeather", input := JsonValue.null,
               referenceId := 1 }],
          ModelResponse.final "63°F and sunny"] =
      runWithOptions { maxTurns := 2 } "What is the weather in Baltimore?"
        [("getWeather", fun _ => Except.ok (JsonValue.str "63°F and sunny"))]
        [ModelResponse.toolRequests
            [{ name := "getWeather", input := JsonValue.null,
               referenceId := 1 }],
          ModelResponse.final "63°F and sunny"] :=
  run_replay_deterministic
    [("getWeather", fun _ => Except.ok (JsonValue.str "63°F and sunny"))]
    [("getWeather", fun _ => Except.ok (JsonValue.str "63°F and sunny"))]
    (fun _ => rfl) { maxTurns := 2 } "What is the weather in Baltimore?"
    [ModelResponse.toolRequests
        [{ name := "getWeather", input := JsonValue.null, referenceId := 1 }],
      ModelResponse.final "63°F and sunny"]

end Orchestration

namespace Orchestration

theorem dispatchOne_referenceId (registry : ToolRegistry)
    (req : ToolInvocationRequest) :
    (dispatchOne registry req).referenceId = req.referenceId := by
  cases h : registry.lookup req.name <;> simp [dispatchOne, h]

theorem range_filterMap_getElem {α β : Type} (l : List α) (f : α → β) :
    (List.range l.length).filterMap (fun i => (l[i]?).map f) = l.map f := by
  induction l with
  | nil => simp
  | cons a t ih =>
    rw [List.length_cons, List.range_succ_eq_map]
    simp only [List.filterMap_cons, List.getElem?_cons_zero, Option.map_some',
      List.filterMap_map, Function.comp_def, List.getElem?_cons_succ,
      List.map_cons]
    rw [ih]

/-- Collecting one turn's dispatch results in any completion order that is a
permutation of the request indices yields a permutation of the in-order
results. -/
theorem collectByCompletion_perm (registry : ToolRegistry)
    (reqs : List ToolInvocationRequest) (order : List Nat)
    (hperm : order.Perm (List.range reqs.length)) :
    (collectByCompletion registry reqs order).Perm
      (reqs.map (dispatchOne registry)) := by
  have h := hperm.filterMap (fun i => (reqs[i]?).map (dispatchOne registry))
  rw [range_filterMap_getElem] at h
  exact h

/-- With pairwise-distinct `referenceId`s, looking a request's `referenceId`
up among the completed results finds exactly that request's dispatch
result. -/
theorem find?_completed_eq (registry : ToolRegistry)
    (reqs : List ToolInvocationRequest)
    (completed : List ToolInvocationResult)
    (hperm : completed.Perm (reqs.map (dispatchOne registry)))
    (hnodup : (reqs.map (fun r => r.referenceId)).Nodup)
    (r : ToolInvocationRequest) (hr : r ∈ reqs) :
    completed.find? (fun res => res.referenceId == r.referenceId) =
      some (dispatchOne registry r) := by
  have hmem : dispatchOne registry r ∈ completed := by
    rw [hperm.mem_iff]
    exact List.mem_map_of_mem _ hr
  have hsome :
      (completed.find?
        (fun res => res.referenceId == r.referenceId)).isSome := by
    rw [List.find?_isSome]
    exact ⟨dispatchOne registry r, hmem, by simp [dispatchOne_referenceId]⟩
  obtain ⟨res, hres⟩ := Option.isSome_iff_exists.mp hsome
  have hres_mem : res ∈ completed := List.mem_of_find?_eq_some hres
  have hres_p : res.referenceId = r.referenceId := by
    have hp := List.find?_some hres
    simpa using hp
  rw [hperm.mem_iff] at hres_mem
  obtain ⟨r', hr', hmap⟩ := List.mem_map.mp hres_mem
  subst hmap
  rw [dispatchOne_referenceId] at hres_p
  have heq : r' = r := List.inj_on_of_nodup_map hnodup hr' hr hres_p
  rw [heq] at hres
  exact hres

/-- C8: for any turn in which the model issues N tool-invocation-requests
dispatched concurrently — completion order modelled as an arbitrary
permutation of the request indices — the collected tool results, paired by
`referenceId`, are exactly the N in-order dispatch results: the single tool
turn appended to history contains exactly N results ordered to match the
order the requests were received, independent of completion order. -/
theorem dispatchConcurrent_request_order (registry : ToolRegistry)
    (reqs : List ToolInvocationRequest) (order : List Nat)
    (s : OrchestrationSession) (p : String) (rest : List ModelResponse)
    (hperm : order.Perm (List.range reqs.length))
    (hnodup : (reqs.map (fun r => r.referenceId)).Nodup)
    (hT : s.turnCount = 0) (hC : s.explicitControl = false)
    (hM : 1 ≤ s.maxTurns) :
    dispatchConcurrent registry reqs order =
      reqs.map (dispatchOne registry) ∧
    (dispatchConcurrent registry reqs order).length = reqs.length ∧
    ({ role := Role.tool,
       content :=
         (dispatchConcurrent registry reqs order).map Part.toolResult } :
        ConversationTurn) ∈
      (run s p registry
        (ModelResponse.toolRequests reqs :: rest)).2.history := by
  have hcoll := collectByCompletion_perm registry reqs order hperm
  have hmain : dispatchConcurrent registry reqs order =
      reqs.map (dispatchOne registry) := by
    rw [dispatchConcurrent, reorderByReference]
    exact List.filterMap_eq_map_iff_forall_eq_some.mpr
      (fun r hr => find?_completed_eq registry reqs _ hcoll hnodup r hr)
  refine ⟨hmain, by rw [hmain, List.length_map], ?_⟩
  rw [hmain]
  have hfuel : s.maxTurns - s.turnCount = (s.maxTurns - 1) + 1 := by omega
  rw [run, hfuel,
    runLoop_step_auto registry (s.maxTurns - 1) reqs rest
      (appendTurn s { role := Role.user, content := [Part.text p] }) none hC]
  refine runLoop_history_mono registry (s.maxTurns - 1) _ _ _ _ ?_
  simp [appendTurn]

theorem dispatchConcurrent_request_order_witness :
    dispatchConcurrent
        [("getWeather", fun _ => Except.ok (JsonValue.str "63°F and sunny"))]
        [{ name := "getWeather", input := JsonValue.null, referenceId := 1 },
         { name := "webSearch", input := JsonValue.null, referenceId := 2 }]
        [1, 0] =
      [{ name := "getWeather", input := JsonValue.null, referenceId := 1 },
       { name := "webSearch", input := JsonValue.null,
         referenceId := 2 }].map
        (dispatchOne
          [("getWeather",
            fun _ => Except.ok (JsonValue.str "63°F and sunny"))]) ∧
    (dispatchConcurrent
        [("getWeather", fun _ => Except.ok (JsonValue.str "63°F and sunny"))]
        [{ name := "getWeather", input := JsonValue.null, referenceId := 1 },
         { name := "webSearch", input := JsonValue.null, referenceId := 2 }]
        [1, 0]).length =
      ([{ name := "getWeather", input := JsonValue.null, referenceId := 1 },
        { name := "webSearch", input := JsonValue.null,
          referenceId := 2 }] : List ToolInvocationRequest).length ∧
    ({ role := Role.tool,
       content :=
         (dispatchConcurrent
           [("getWeather",
             fun _ => Except.ok (JsonValue.str "63°F and sunny"))]
           [{ name := "getWeather", input := JsonValue.null,
              referenceId := 1 },
            { name := "webSearch", input := JsonValue.null,
              referenceId := 2 }]
           [1, 0]).map Part.toolResult } : ConversationTurn) ∈
      (run (mkSession { maxTurns := 2 }) "Research the weather"
        [("getWeather", fun _ => Except.ok (JsonValue.str "63°F and sunny"))]
        (ModelResponse.toolRequests
            [{ name := "getWeather", input := JsonValue.null,
               referenceId := 1 },
             { name := "webSearch", input := JsonValue.null,
               referenceId := 2 }] ::
          [ModelResponse.final "done"])).2.history :=
  dispatchConcurrent_request_order
    [("getWeather", fun _ => Except.ok (JsonValue.str "63°F and sunny"))]
    [{ name := "getWeather", input := JsonValue.null, referenceId := 1 },
     { name := "webSearch", input := JsonValue.null, referenceId := 2 }]
    [1, 0] (mkSession { maxTurns := 2 }) "Research the weather"
    [ModelResponse.final "done"] (by decide) (by decide) rfl rfl (by decide)

end Orchestration

namespace GoTQuotes

/-- Whatever the branch taken, the computed character segment is the
lowercased first space-separated word of the name. -/
theorem characterNameOf_eq_lower_firstWord (i : InputGetQuotes) :
    characterNameOf i = jsToLowerString (firstWord i.name) := by
  by_cases h : i.name = ""
  · rw [characterNameOf, if_neg (not_not_intro h), h]
    decide
  · rw [characterNameOf, if_pos h]

/-- C9: for every input to the getCharacterQuotesGameOfThrones tool, the
character segment of the request URL is computed from only the first
space-separated word of the input name, lowercased; for an input whose name
is the empty string the segment is the empty string; hence any two inputs
whose names share the same first word up to case (and agree on `numQuotes`)
produce the same API request URL. -/
theorem characterName_first_word_lowercased (i1 i2 : InputGetQuotes)
    (hw : jsToLowerString (firstWord i1.name) =
      jsToLowerString (firstWord i2.name))
    (hq : i1.numQuotes = i2.numQuotes) :
    characterNameOf i1 = jsToLowerString (firstWord i1.name) ∧
    characterNameOf { name := "", numQuotes := i1.numQuotes } = "" ∧
    requestUrl i1 = requestUrl i2 := by
  refine ⟨characterNameOf_eq_lower_firstWord i1, by simp [characterNameOf], ?_⟩
  rw [requestUrl, requestUrl, characterNameOf_eq_lower_firstWord i1,
    characterNameOf_eq_lower_firstWord i2, hw, hq]

theorem characterName_first_word_lowercased_witness :
    characterNameOf { name := "JOFFREY Baratheon", numQuotes := 2 } =
      jsToLowerString (firstWord "JOFFREY Baratheon") ∧
    characterNameOf { name := "", numQuotes := 2 } = "" ∧
    requestUrl { name := "JOFFREY Baratheon", numQuotes := 2 } =
      requestUrl { name := "joffrey Lannister", numQuotes := 2 } :=
  characterName_first_word_lowercased
    { name := "JOFFREY Baratheon", numQuotes := 2 }
    { name := "joffrey Lannister", numQuotes := 2 } (by decide) rfl

end GoTQuotes

namespace BlogPostFlow

open Orchestration

/-- C10: BlogPostFlowWithSchema never returns a null or schema-violating
value: every execution either returns an output accepted by BlogPostSchema,
or throws "Response doesn't satisfy schema." exactly when the
structured-output generate call yields null. -/
theorem blogPostFlow_schema_or_error (animalsText : String)
    (structuredModel : String → JsonValue) :
    (∃ o, BlogPostFlowWithSchema animalsText structuredModel = Except.ok o ∧
      blogPostSchemaAccepts o = true) ∨
    (BlogPostFlowWithSchema animalsText structuredModel =
        Except.error "Response doesn't satisfy schema." ∧
      generateStructured (structuredModel
        ("Create a blog post for national geographic over these animals " ++
          animalsText)) = none) := by
  by_cases h : blogPostSchemaAccepts (structuredModel
      ("Create a blog post for national geographic over these animals " ++
        animalsText)) = true
  · refine Or.inl ⟨structuredModel
      ("Create a blog post for national geographic over these animals " ++
        animalsText), ?_, h⟩
    simp [BlogPostFlowWithSchema, generateStructured, h]
  · refine Or.inr ⟨?_, ?_⟩ <;>
      simp [BlogPostFlowWithSchema, generateStructured, h]

end BlogPostFlow
